import Mathlib

/-!
# The profiling envelope `RpcWithProfilingReq`

A shallow embedding of
`torch/csrc/distributed/autograd/rpc_messages/rpc_with_profiling_req.cpp`.

* C++ exceptions raised by `TORCH_INTERNAL_ASSERT` are values of `Fatal`, and a
  function that can raise returns `Except Fatal _`.
* Code that the file calls but does not define (the `Message` class, the
  wrapped-payload codec, the pickler, the request registry, the profiler
  configuration conversions, the enumeration constants) is collected in the
  structure `Collaborators`; every definition takes it as its first argument.
* `toMessageImpl` is rvalue-qualified and moves members out of the envelope: it
  returns its result together with the envelope as it is left behind.
* `fromMessage` returns its result together with the list of collaborator
  calls it executed, in order.
-/

namespace RpcProfiling

/-! ## Data model -/

/-- The contents of a `std::vector<char>`. -/
abbrev Payload := List Nat

/-- The enumeration `rpc::MessageType`, represented by its integer value: the
value an `IValue` built from a tag holds. -/
abbrev MessageType := Int

/-- The constant `profilingResponseElementExpectedSize` of the source. -/
def profilingResponseElementExpectedSize : Nat := 3

/-- Width in bits of the C++ type `int`. -/
def intBits : Nat := 32

/-- Conversion of an integer to a signed two-complement type of `bits` bits. -/
def wrapSigned (bits : Nat) (x : Int) : Int :=
  (x + 2 ^ (bits - 1)) % 2 ^ bits - 2 ^ (bits - 1)

/-- The dynamically typed value `at::IValue`, as far as the envelope looks at
it: an integer, or one of the kinds that are not an integer. -/
inductive IValue where
  | int (i : Int)
  | bool (b : Bool)
  | intList (xs : List Int)
  | null
deriving DecidableEq, Repr

/-- The fatal internal errors: one per `TORCH_INTERNAL_ASSERT` of the source,
the failed `isInt()` check of `IValue::toInt`, and an error raised inside a
collaborator. -/
inductive Fatal where
  | incorrectMessageType
  | wrappedRpcCantBeNull
  | wrappedRpcCannotBeNull
  | wrappedPayloadEmpty
  | unexpectedPayloadSize (got : Nat)
  | mustBeRequests
  | notAnInt
  | collaborator (code : Nat)
deriving DecidableEq, Repr

/-- The method `IValue::toInt`: the stored integer, fatal on any other kind. -/
def IValue.toInt : IValue → Except Fatal Int
  | .int i => .ok i
  | _ => .error .notAnInt

/-- The value type `rpc::Message`: payload, tensors, type tag, id. -/
structure Message (Tensor : Type) where
  payload : Payload
  tensors : List Tensor
  type : MessageType
  id : Int
deriving DecidableEq, Repr

/-- Everything the source calls without defining it. -/
structure Collaborators (Tensor Cmd Cfg : Type) where
  /-- The enumeration constant `rpc::MessageType::RUN_WITH_PROFILING_REQ`. -/
  RUN_WITH_PROFILING_REQ : MessageType
  /-- The test behind `Message::isRequest`, on the type tag. -/
  isRequest : MessageType → Bool
  /-- Width in bits of the signed type `rpc::worker_id_t`. -/
  workerIdBits : Nat
  /-- Width in bits of the underlying type of the enumeration `rpc::MessageType`. -/
  messageTypeBits : Nat
  /-- Whether the underlying type of `rpc::MessageType` is signed. -/
  messageTypeSigned : Bool
  /-- Type tag of a default-constructed `Message`. -/
  defaultMessageType : MessageType
  /-- Id of a default-constructed `Message`. -/
  defaultMessageId : Int
  /-- The method `ProfilerConfig::toIValues`. -/
  toIValues : Cfg → IValue
  /-- The function `ProfilerConfig::fromIValue`. -/
  fromIValue : IValue → Except Fatal Cfg
  /-- The call `jit::pickle(Tuple::create(ivalues), &tensorTable)`: the bytes
  and the tensor table it fills. -/
  pickle : List IValue → Payload × List Tensor
  /-- The call `rpc::writeWrappedPayload(original, additional)`: the original
  payload as it is left. -/
  writeWrappedPayload : Payload → Payload → Payload
  /-- The call `rpc::readWrappedPayload(payload, message)`: the tuple elements
  it returns and the payload as it is left. -/
  readWrappedPayload : Payload → Message Tensor → Except Fatal (List IValue × Payload)
  /-- The registry `deserializeRequest`; a `std::unique_ptr` may be null. -/
  deserializeRequest : Message Tensor → Except Fatal (Option Cmd)

/-- The conversion `static_cast<rpc::MessageType>` of a 64-bit integer: the
integer is narrowed to the underlying type of the enumeration. -/
def castMessageType {Tensor Cmd Cfg : Type} (X : Collaborators Tensor Cmd Cfg) (x : Int) :
    MessageType :=
  if X.messageTypeSigned then wrapSigned X.messageTypeBits x else x % 2 ^ X.messageTypeBits

/-- The method `Message::isRequest`. -/
def Message.isRequest {Tensor Cmd Cfg : Type} (X : Collaborators Tensor Cmd Cfg)
    (m : Message Tensor) : Bool :=
  X.isRequest m.type

/-- A default-constructed `Message`: empty vectors and the default tag and id. -/
def Message.default {Tensor Cmd Cfg : Type} (X : Collaborators Tensor Cmd Cfg) :
    Message Tensor :=
  { payload := [], tensors := [], type := X.defaultMessageType, id := X.defaultMessageId }

/-- The data members of the class `RpcWithProfilingReq`. A null
`std::unique_ptr` is `none`; a worker id is the integer value of a
`worker_id_t`. -/
structure RpcWithProfilingReq (Tensor Cmd Cfg : Type) where
  fromWorkerId_ : Int
  messageType_ : MessageType
  wrappedMessage_ : Message Tensor
  wrappedRpc_ : Option Cmd
  wrappedMessageType_ : MessageType
  tensors_ : List Tensor
  profilerConfig_ : Cfg

/-- One collaborator call executed by `fromMessage`. -/
inductive Step (Tensor : Type) where
  | readWrappedPayload (payload : Payload) (message : Message Tensor)
  | fromIValue (v : IValue)
  | isRequest (wrappedMessage : Message Tensor)
  | deserializeRequest (wrappedMessage : Message Tensor)
deriving DecidableEq, Repr

section Operations

variable {Tensor Cmd Cfg : Type}

/-! ## Constructors -/

/-- The constructor called on the client (source lines 16-30). -/
def RpcWithProfilingReq.mkOutbound (X : Collaborators Tensor Cmd Cfg)
    (fromWorkerId : Int) (messageType : MessageType)
    (wrappedMessage : Message Tensor) (profilerConfig : Cfg) :
    Except Fatal (RpcWithProfilingReq Tensor Cmd Cfg) :=
  let tensors := wrappedMessage.tensors
  if messageType = X.RUN_WITH_PROFILING_REQ then
    .ok { fromWorkerId_ := fromWorkerId
          messageType_ := messageType
          wrappedMessage_ := wrappedMessage
          wrappedRpc_ := none
          wrappedMessageType_ := wrappedMessage.type
          tensors_ := tensors
          profilerConfig_ := profilerConfig }
  else
    .error .incorrectMessageType

/-- The constructor called in `fromMessage` (source lines 35-49). -/
def RpcWithProfilingReq.mkInbound (X : Collaborators Tensor Cmd Cfg)
    (fromWorkerId : Int) (messageType : MessageType) (wrappedRpc : Option Cmd)
    (wrappedMessageType : MessageType) (tensors : List Tensor) (profilerConfig : Cfg) :
    Except Fatal (RpcWithProfilingReq Tensor Cmd Cfg) :=
  if wrappedRpc.isSome then
    .ok { fromWorkerId_ := fromWorkerId
          messageType_ := messageType
          wrappedMessage_ := Message.default X
          wrappedRpc_ := wrappedRpc
          wrappedMessageType_ := wrappedMessageType
          tensors_ := tensors
          profilerConfig_ := profilerConfig }
  else
    .error .wrappedRpcCantBeNull

/-! ## Accessors -/

/-- The accessor `wrappedMessageType()`. -/
def RpcWithProfilingReq.wrappedMessageType (self : RpcWithProfilingReq Tensor Cmd Cfg) :
    MessageType :=
  self.wrappedMessageType_

/-- The setter `setWrappedRpc`. -/
def RpcWithProfilingReq.setWrappedRpc (self : RpcWithProfilingReq Tensor Cmd Cfg)
    (wrappedRpc : Option Cmd) : RpcWithProfilingReq Tensor Cmd Cfg :=
  { self with wrappedRpc_ := wrappedRpc }

/-- The accessor `wrappedRpc()`. -/
def RpcWithProfilingReq.wrappedRpc (self : RpcWithProfilingReq Tensor Cmd Cfg) :
    Except Fatal Cmd :=
  match self.wrappedRpc_ with
  | some c => .ok c
  | none => .error .wrappedRpcCannotBeNull

/-- The accessor `getProfilingConfig()`. -/
def RpcWithProfilingReq.getProfilingConfig (self : RpcWithProfilingReq Tensor Cmd Cfg) :
    Cfg :=
  self.profilerConfig_

/-- The accessor `fromWorkerId()`. -/
def RpcWithProfilingReq.fromWorkerId (self : RpcWithProfilingReq Tensor Cmd Cfg) : Int :=
  self.fromWorkerId_

/-! ## Serialisation -/

/-- The method `toMessageImpl() &&` (source lines 60-89): the returned Message
or the error raised, and the envelope as the call leaves it. -/
def RpcWithProfilingReq.toMessageImpl (X : Collaborators Tensor Cmd Cfg)
    (self : RpcWithProfilingReq Tensor Cmd Cfg) :
    Except Fatal (Message Tensor) × RpcWithProfilingReq Tensor Cmd Cfg :=
  let wrappedMsgId := self.wrappedMessage_.id
  let wrappedMsgType := self.wrappedMessage_.type
  -- the payload is moved out of the wrapped message
  let wrappedPayload := self.wrappedMessage_.payload
  let moved := { self with wrappedMessage_ := { self.wrappedMessage_ with payload := [] } }
  if wrappedPayload.isEmpty then
    (.error .wrappedPayloadEmpty, moved)
  else
    let ivalues := [IValue.int wrappedMsgType, IValue.int self.fromWorkerId_]
    let ivalues := ivalues ++ [X.toIValues self.profilerConfig_]
    let pickled := X.pickle ivalues
    let profilingPayload := pickled.1
    let wrappedPayload := X.writeWrappedPayload wrappedPayload profilingPayload
    let returnMsg : Message Tensor :=
      { payload := wrappedPayload
        tensors := moved.tensors_
        type := moved.messageType_
        id := wrappedMsgId }
    (.ok returnMsg, { moved with tensors_ := [] })

/-! ## Deserialisation -/

/-- The static method `fromMessage` (source lines 105-144): the envelope or the
error raised, and the collaborator calls executed. Element 0 is narrowed to the
underlying type of `MessageType` by the `static_cast`; element 1 is narrowed to
`int` when it is stored in the local `fromWorkerId`, and to `worker_id_t` when
that local is passed to the constructor. -/
def RpcWithProfilingReq.fromMessage (X : Collaborators Tensor Cmd Cfg)
    (message : Message Tensor) :
    Except Fatal (RpcWithProfilingReq Tensor Cmd Cfg) × List (Step Tensor) :=
  let origMsgType := message.type
  let tensors := message.tensors
  let msgId := message.id
  let payload := message.payload
  let t1 := [Step.readWrappedPayload payload message]
  match X.readWrappedPayload payload message with
  | .error e => (.error e, t1)
  | .ok (tupleElements, payload) =>
    if tupleElements.length ≠ profilingResponseElementExpectedSize then
      (.error (.unexpectedPayloadSize tupleElements.length), t1)
    else
      match tupleElements with
      | [e0, e1, e2] =>
        match e0.toInt with
        | .error e => (.error e, t1)
        | .ok i0 =>
          let wrappedMsgType := castMessageType X i0
          match e1.toInt with
          | .error e => (.error e, t1)
          | .ok i1 =>
            let fromWorkerId := wrapSigned intBits i1
            let t2 := t1 ++ [Step.fromIValue e2]
            match X.fromIValue e2 with
            | .error e => (.error e, t2)
            | .ok cfg =>
              let wrappedMessage : Message Tensor :=
                { payload := payload, tensors := tensors, type := wrappedMsgType, id := msgId }
              let t3 := t2 ++ [Step.isRequest wrappedMessage]
              if wrappedMessage.isRequest X then
                let t4 := t3 ++ [Step.deserializeRequest wrappedMessage]
                match X.deserializeRequest wrappedMessage with
                | .error e => (.error e, t4)
                | .ok wrappedRpc =>
                  (RpcWithProfilingReq.mkInbound X (wrapSigned X.workerIdBits fromWorkerId)
                    origMsgType wrappedRpc wrappedMsgType wrappedMessage.tensors cfg, t4)
              else
                (.error .mustBeRequests, t3)
      | _ => (.error (.unexpectedPayloadSize tupleElements.length), t1)

end Operations

/-! ## Lifecycle -/

section Lifecycle

variable {Tensor Cmd Cfg : Type}

/-- The inner Message of the envelope is populated: it holds a payload. -/
def RpcWithProfilingReq.hasWrappedMessage (self : RpcWithProfilingReq Tensor Cmd Cfg) :
    Bool :=
  !self.wrappedMessage_.payload.isEmpty

/-- The wrapped command of the envelope is populated: the pointer is not null. -/
def RpcWithProfilingReq.hasWrappedRpc (self : RpcWithProfilingReq Tensor Cmd Cfg) : Bool :=
  self.wrappedRpc_.isSome

/-- Exactly one of the inner Message and the wrapped command is populated. -/
def RpcWithProfilingReq.exactlyOnePopulated (self : RpcWithProfilingReq Tensor Cmd Cfg) :
    Bool :=
  xor self.hasWrappedMessage self.hasWrappedRpc

/-- The states of an envelope: those either constructor returns, and those
any sequence of `setWrappedRpc` and `toMessageImpl` calls leaves behind. -/
inductive Reachable (X : Collaborators Tensor Cmd Cfg) :
    RpcWithProfilingReq Tensor Cmd Cfg → Prop where
  | outbound (w : Int) (mt : MessageType) (M : Message Tensor) (C : Cfg)
      (e : RpcWithProfilingReq Tensor Cmd Cfg) :
      RpcWithProfilingReq.mkOutbound X w mt M C = .ok e → Reachable X e
  | inbound (w : Int) (mt : MessageType) (rpc : Option Cmd) (wmt : MessageType)
      (ts : List Tensor) (C : Cfg) (e : RpcWithProfilingReq Tensor Cmd Cfg) :
      RpcWithProfilingReq.mkInbound X w mt rpc wmt ts C = .ok e → Reachable X e
  | setWrappedRpc (e : RpcWithProfilingReq Tensor Cmd Cfg) (wrappedRpc : Option Cmd) :
      Reachable X e → Reachable X (e.setWrappedRpc wrappedRpc)
  | toMessageImpl (e : RpcWithProfilingReq Tensor Cmd Cfg) :
      Reachable X e → Reachable X (e.toMessageImpl X).2

end Lifecycle

/-! ## A concrete set of collaborators

Tensors are numbered handles, a command is the payload it was built from, and
a profiler configuration is one integer. The codec writes an integer as a sign
and a magnitude, and appends the metadata blob followed by its length. -/

namespace Sample

/-- Bytes of a tuple of values: two per element. -/
def encode : List IValue → Payload
  | [] => []
  | .int i :: rest => (if i < 0 then 1 else 0) :: i.natAbs :: encode rest
  | _ :: rest => 2 :: 0 :: encode rest

/-- Values of a sequence of bytes written by `encode`. -/
def decode : Payload → List IValue
  | 0 :: n :: rest => .int n :: decode rest
  | 1 :: n :: rest => .int (-n) :: decode rest
  | _ :: _ :: rest => .null :: decode rest
  | _ => []

/-- Appends the blob and its length. -/
def write (original additional : Payload) : Payload :=
  original ++ additional ++ [additional.length]

/-- Splits off the blob, decodes it, and leaves the original payload. -/
def read (payload : Payload) (_message : Message Nat) :
    Except Fatal (List IValue × Payload) :=
  match payload.getLast? with
  | none => .error (.collaborator 0)
  | some n =>
    let body := payload.dropLast
    if body.length ≤ n then .error (.collaborator 1)
    else .ok (decode (body.drop (body.length - n)), body.take (body.length - n))

/-- A configuration is read back from an integer value only. -/
def configOfIValue : IValue → Except Fatal Int
  | .int i => .ok i
  | _ => .error (.collaborator 2)

/-- Request kinds carry the flag `0x100`. -/
def requestFlag (t : MessageType) : Bool :=
  decide ((t / 256) % 2 = 1)

/-- The sample collaborators; `worker_id_t` has 16 bits and the enumeration
has an unsigned underlying type of 32 bits. -/
def collab : Collaborators Nat Payload Int where
  RUN_WITH_PROFILING_REQ := 276
  isRequest := requestFlag
  workerIdBits := 16
  messageTypeBits := 32
  messageTypeSigned := false
  defaultMessageType := 60
  defaultMessageId := -1
  toIValues := fun c => .int c
  fromIValue := configOfIValue
  pickle := fun vs => (encode vs, [])
  writeWrappedPayload := write
  readWrappedPayload := read
  deserializeRequest := fun m => .ok (some m.payload)

/-- A request (tag `0x100`) with payload `ABCD`, two tensors and id 5. -/
def request : Message Nat :=
  { payload := [65, 66, 67, 68], tensors := [11, 12], type := 256, id := 5 }

/-- A response (tag `0x215`) with payload `ABCD`, no tensors and id 5. -/
def response : Message Nat :=
  { payload := [65, 66, 67, 68], tensors := [], type := 533, id := 5 }

/-- A request whose payload is empty. -/
def emptyRequest : Message Nat :=
  { payload := [], tensors := [11], type := 256, id := 9 }

/-- The outbound envelope around `request`, from worker 7 with configuration 1. -/
def outbound : RpcWithProfilingReq Nat Payload Int :=
  { fromWorkerId_ := 7
    messageType_ := 276
    wrappedMessage_ := request
    wrappedRpc_ := none
    wrappedMessageType_ := 256
    tensors_ := [11, 12]
    profilerConfig_ := 1 }

/-- The Message that `toMessageImpl` returns for `outbound`. -/
def wire : Message Nat :=
  { payload := [65, 66, 67, 68, 0, 256, 0, 7, 0, 1, 6], tensors := [11, 12], type := 276,
    id := 5 }

/-- The outbound envelope around `emptyRequest`. -/
def emptyOutbound : RpcWithProfilingReq Nat Payload Int :=
  { fromWorkerId_ := 7
    messageType_ := 276
    wrappedMessage_ := emptyRequest
    wrappedRpc_ := none
    wrappedMessageType_ := 256
    tensors_ := [11]
    profilerConfig_ := 1 }

/-- The sample collaborators with a pickler that fills its tensor table. -/
def noisy : Collaborators Nat Payload Int :=
  { collab with pickle := fun vs => (encode vs, [98, 99]) }

/-- A received Message whose metadata blob decodes to the two elements 7, 9. -/
def twoElements : Message Nat :=
  { payload := [65, 0, 7, 0, 9, 4], tensors := [], type := 276, id := 3 }

/-- A received Message whose metadata blob decodes to the four elements
256, 7, 1, 1. -/
def fourElements : Message Nat :=
  { payload := [65, 0, 256, 0, 7, 0, 1, 0, 1, 8], tensors := [], type := 276, id := 3 }

/-- A received Message whose metadata tuple is 533 (a response tag), 7, 1. -/
def wrappedResponse : Message Nat :=
  { payload := [65, 66, 67, 68, 0, 533, 0, 7, 0, 1, 6], tensors := [], type := 276, id := 5 }

/-- The outbound envelope around `response`. -/
def responseOutbound : RpcWithProfilingReq Nat Payload Int :=
  { fromWorkerId_ := 7
    messageType_ := 276
    wrappedMessage_ := response
    wrappedRpc_ := none
    wrappedMessageType_ := 533
    tensors_ := []
    profilerConfig_ := 1 }

/-- The Message of `wire` under the top-level tag `0x100` instead of `0x114`. -/
def mistagged : Message Nat :=
  { wire with type := 256 }

/-- The inbound envelope that `fromMessage` returns for `wire`. -/
def inbound : RpcWithProfilingReq Nat Payload Int :=
  { fromWorkerId_ := 7
    messageType_ := 276
    wrappedMessage_ := Message.default collab
    wrappedRpc_ := some [65, 66, 67, 68]
    wrappedMessageType_ := 256
    tensors_ := [11, 12]
    profilerConfig_ := 1 }

/-- The envelope `outbound` as a successful `toMessageImpl` leaves it. -/
def consumed : RpcWithProfilingReq Nat Payload Int :=
  { fromWorkerId_ := 7
    messageType_ := 276
    wrappedMessage_ := { payload := [], tensors := [11, 12], type := 256, id := 5 }
    wrappedRpc_ := none
    wrappedMessageType_ := 256
    tensors_ := []
    profilerConfig_ := 1 }

end Sample

/-! ## Lemmas -/

section Lemmas

variable {Tensor Cmd Cfg : Type}

theorem mkOutbound_ok {X : Collaborators Tensor Cmd Cfg} {w : Int} {mt : MessageType}
    {M : Message Tensor} {C : Cfg} {e : RpcWithProfilingReq Tensor Cmd Cfg}
    (he : RpcWithProfilingReq.mkOutbound X w mt M C = .ok e) :
    mt = X.RUN_WITH_PROFILING_REQ ∧
    e = { fromWorkerId_ := w, messageType_ := mt, wrappedMessage_ := M, wrappedRpc_ := none,
          wrappedMessageType_ := M.type, tensors_ := M.tensors, profilerConfig_ := C } := by
  unfold RpcWithProfilingReq.mkOutbound at he
  by_cases h : mt = X.RUN_WITH_PROFILING_REQ
  · simp only [h, if_true] at he
    injection he with he
    exact ⟨h, by rw [← he, h]⟩
  · simp [h] at he

theorem toMessageImpl_nonempty (X : Collaborators Tensor Cmd Cfg)
    (e : RpcWithProfilingReq Tensor Cmd Cfg) (hne : e.wrappedMessage_.payload ≠ []) :
    (e.toMessageImpl X).1 = .ok
      { payload := X.writeWrappedPayload e.wrappedMessage_.payload
          (X.pickle [.int e.wrappedMessage_.type, .int e.fromWorkerId_,
            X.toIValues e.profilerConfig_]).1
        tensors := e.tensors_
        type := e.messageType_
        id := e.wrappedMessage_.id } := by
  have h : e.wrappedMessage_.payload.isEmpty = false := by
    cases hp : e.wrappedMessage_.payload with
    | nil => exact absurd hp hne
    | cons a l => rfl
  simp [RpcWithProfilingReq.toMessageImpl, h]

theorem toMessageImpl_empty (X : Collaborators Tensor Cmd Cfg)
    (e : RpcWithProfilingReq Tensor Cmd Cfg) (hempty : e.wrappedMessage_.payload = []) :
    (e.toMessageImpl X).1 = .error .wrappedPayloadEmpty := by
  simp [RpcWithProfilingReq.toMessageImpl, hempty]

theorem fromMessage_bad_arity (X : Collaborators Tensor Cmd Cfg) (message : Message Tensor)
    (tupleElements : List IValue) (rest : Payload)
    (hread : X.readWrappedPayload message.payload message = .ok (tupleElements, rest))
    (hk : tupleElements.length ≠ 3) :
    RpcWithProfilingReq.fromMessage X message =
      (.error (.unexpectedPayloadSize tupleElements.length),
        [Step.readWrappedPayload message.payload message]) := by
  simp [RpcWithProfilingReq.fromMessage, hread, profilingResponseElementExpectedSize, hk]

theorem fromMessage_not_request (X : Collaborators Tensor Cmd Cfg) (message : Message Tensor)
    (t : MessageType) (e1 e2 : IValue) (rest : Payload)
    (hread : X.readWrappedPayload message.payload message = .ok ([.int t, e1, e2], rest))
    (hnot : X.isRequest (castMessageType X t) = false) :
    (∃ err, (RpcWithProfilingReq.fromMessage X message).1 = .error err) ∧
    (∀ m, Step.deserializeRequest m ∉ (RpcWithProfilingReq.fromMessage X message).2) ∧
    (∀ i cfg, e1 = .int i → X.fromIValue e2 = .ok cfg →
      (RpcWithProfilingReq.fromMessage X message).1 = .error .mustBeRequests) := by
  cases e1 with
  | int i =>
    cases hc : X.fromIValue e2 with
    | error err =>
      simp [RpcWithProfilingReq.fromMessage, hread, profilingResponseElementExpectedSize,
        IValue.toInt, hc]
    | ok cfg =>
      simp [RpcWithProfilingReq.fromMessage, hread, profilingResponseElementExpectedSize,
        IValue.toInt, hc, Message.isRequest, hnot]
  | bool b =>
    simp [RpcWithProfilingReq.fromMessage, hread, profilingResponseElementExpectedSize,
      IValue.toInt]
  | intList xs =>
    simp [RpcWithProfilingReq.fromMessage, hread, profilingResponseElementExpectedSize,
      IValue.toInt]
  | null =>
    simp [RpcWithProfilingReq.fromMessage, hread, profilingResponseElementExpectedSize,
      IValue.toInt]

theorem mkInbound_ok {X : Collaborators Tensor Cmd Cfg} {w : Int} {mt wmt : MessageType}
    {rpc : Option Cmd} {ts : List Tensor} {C : Cfg} {e : RpcWithProfilingReq Tensor Cmd Cfg}
    (he : RpcWithProfilingReq.mkInbound X w mt rpc wmt ts C = .ok e) :
    rpc.isSome = true ∧
    e = { fromWorkerId_ := w, messageType_ := mt, wrappedMessage_ := Message.default X,
          wrappedRpc_ := rpc, wrappedMessageType_ := wmt, tensors_ := ts,
          profilerConfig_ := C } := by
  unfold RpcWithProfilingReq.mkInbound at he
  by_cases h : rpc.isSome = true
  · simp only [h, if_true] at he
    injection he with he
    exact ⟨h, he.symm⟩
  · simp [h] at he

theorem fromMessage_ok {X : Collaborators Tensor Cmd Cfg} {message : Message Tensor}
    {env : RpcWithProfilingReq Tensor Cmd Cfg}
    (h : (RpcWithProfilingReq.fromMessage X message).1 = .ok env) :
    ∃ t i e2 rest cfg rpc,
      X.readWrappedPayload message.payload message = .ok ([.int t, .int i, e2], rest) ∧
      X.fromIValue e2 = .ok cfg ∧
      X.isRequest (castMessageType X t) = true ∧
      X.deserializeRequest
        { payload := rest, tensors := message.tensors, type := castMessageType X t,
          id := message.id }
        = .ok rpc ∧
      RpcWithProfilingReq.mkInbound X (wrapSigned X.workerIdBits (wrapSigned intBits i))
        message.type rpc (castMessageType X t) message.tensors cfg = .ok env := by
  unfold RpcWithProfilingReq.fromMessage at h
  cases hr : X.readWrappedPayload message.payload message with
  | error err => simp [hr] at h
  | ok r =>
    obtain ⟨elems, rest⟩ := r
    simp only [hr] at h
    by_cases hlen : elems.length = profilingResponseElementExpectedSize
    · simp only [hlen, ne_eq, not_true_eq_false, if_false] at h
      match elems, hlen with
      | [e0, e1, e2], _ =>
        cases e0 <;> cases e1 <;> simp only [IValue.toInt] at h <;> try cases h
        rename_i t i _
        cases hc : X.fromIValue e2 with
        | error err => simp [hc] at h
        | ok cfg =>
          simp only [hc] at h
          by_cases hq : X.isRequest (castMessageType X t) = true
          · simp only [Message.isRequest, hq, if_true] at h
            cases hd : X.deserializeRequest
                { payload := rest, tensors := message.tensors, type := castMessageType X t,
                  id := message.id } with
            | error err => simp [hd] at h
            | ok rpc =>
              simp only [hd] at h
              exact ⟨t, i, e2, rest, cfg, rpc, rfl, hc, hq, hd, h⟩
          · simp [Message.isRequest, hq] at h
    · simp [hlen] at h

theorem toMessageImpl_left_payload (X : Collaborators Tensor Cmd Cfg)
    (e : RpcWithProfilingReq Tensor Cmd Cfg) :
    (e.toMessageImpl X).2.wrappedMessage_.payload = [] := by
  unfold RpcWithProfilingReq.toMessageImpl
  by_cases h : e.wrappedMessage_.payload.isEmpty = true <;> simp [h]

theorem toMessageImpl_left_rpc (X : Collaborators Tensor Cmd Cfg)
    (e : RpcWithProfilingReq Tensor Cmd Cfg) :
    (e.toMessageImpl X).2.wrappedRpc_ = e.wrappedRpc_ := by
  unfold RpcWithProfilingReq.toMessageImpl
  by_cases h : e.wrappedMessage_.payload.isEmpty = true <;> simp [h]

theorem iterate_toMessageImpl_payload (X : Collaborators Tensor Cmd Cfg)
    (e : RpcWithProfilingReq Tensor Cmd Cfg) (n : Nat) :
    ((fun s => (RpcWithProfilingReq.toMessageImpl X s).2)^[n + 1] e).wrappedMessage_.payload
      = [] := by
  rw [Function.iterate_succ_apply']
  exact toMessageImpl_left_payload X _

theorem fromMessage_eval (X : Collaborators Tensor Cmd Cfg) (message : Message Tensor)
    (t i : Int) (e2 : IValue) (rest : Payload) (cfg : Cfg) (rpc : Option Cmd)
    (hread : X.readWrappedPayload message.payload message = .ok ([.int t, .int i, e2], rest))
    (hcfg : X.fromIValue e2 = .ok cfg)
    (hq : X.isRequest (castMessageType X t) = true)
    (hd : X.deserializeRequest
        { payload := rest, tensors := message.tensors, type := castMessageType X t,
          id := message.id }
        = .ok rpc) :
    RpcWithProfilingReq.fromMessage X message =
      (RpcWithProfilingReq.mkInbound X (wrapSigned X.workerIdBits (wrapSigned intBits i))
          message.type rpc (castMessageType X t) message.tensors cfg,
        [Step.readWrappedPayload message.payload message, Step.fromIValue e2,
          Step.isRequest
            { payload := rest, tensors := message.tensors, type := castMessageType X t,
              id := message.id },
          Step.deserializeRequest
            { payload := rest, tensors := message.tensors, type := castMessageType X t,
              id := message.id }]) := by
  simp [RpcWithProfilingReq.fromMessage, hread, profilingResponseElementExpectedSize,
    IValue.toInt, hcfg, Message.isRequest, hq, hd]

theorem fromMessage_reaches_fromIValue (X : Collaborators Tensor Cmd Cfg)
    (message : Message Tensor) (t i : Int) (e2 : IValue) (rest : Payload)
    (hread : X.readWrappedPayload message.payload message = .ok ([.int t, .int i, e2], rest)) :
    Step.fromIValue e2 ∈ (RpcWithProfilingReq.fromMessage X message).2 := by
  cases hc : X.fromIValue e2 with
  | error err =>
    simp [RpcWithProfilingReq.fromMessage, hread, profilingResponseElementExpectedSize,
      IValue.toInt, hc]
  | ok cfg =>
    cases hq : X.isRequest (castMessageType X t) with
    | false =>
      simp [RpcWithProfilingReq.fromMessage, hread, profilingResponseElementExpectedSize,
        IValue.toInt, hc, Message.isRequest, hq]
    | true =>
      cases hd : X.deserializeRequest
          { payload := rest, tensors := message.tensors, type := castMessageType X t,
            id := message.id } with
      | error err =>
        simp [RpcWithProfilingReq.fromMessage, hread, profilingResponseElementExpectedSize,
          IValue.toInt, hc, Message.isRequest, hq, hd]
      | ok rpc =>
        simp [RpcWithProfilingReq.fromMessage, hread, profilingResponseElementExpectedSize,
          IValue.toInt, hc, Message.isRequest, hq, hd]

end Lemmas

/-! ## The claims -/

section Claims

variable {Tensor Cmd Cfg : Type}

/-- C2 (id preservation). For every envelope `e` that the outbound constructor
builds around an inner Message `M`, whenever `toMessageImpl` succeeds the id of
the Message it returns is `M.id`. -/
theorem C2_id_preserved (X : Collaborators Tensor Cmd Cfg) (w : Int) (mt : MessageType)
    (M : Message Tensor) (C : Cfg) (e : RpcWithProfilingReq Tensor Cmd Cfg)
    (out : Message Tensor)
    (he : RpcWithProfilingReq.mkOutbound X w mt M C = .ok e)
    (hout : (e.toMessageImpl X).1 = .ok out) :
    out.id = M.id := by
  obtain ⟨-, rfl⟩ := mkOutbound_ok he
  by_cases hp : M.payload = []
  · rw [toMessageImpl_empty X _ hp] at hout
    cases hout
  · rw [toMessageImpl_nonempty X _ hp] at hout
    injection hout with hout
    rw [← hout]

/-- C2 at the sample envelope: the returned Message has id 5. -/
theorem C2_id_preserved_witness :
    RpcWithProfilingReq.mkOutbound Sample.collab 7 276 Sample.request 1
      = .ok Sample.outbound ∧
    (Sample.outbound.toMessageImpl Sample.collab).1 = .ok Sample.wire ∧
    Sample.wire.id = Sample.request.id :=
  ⟨rfl, rfl,
    C2_id_preserved Sample.collab 7 276 Sample.request 1 Sample.outbound Sample.wire rfl rfl⟩

/-- C3 (tensor preservation on serialize). For every envelope `e` that the
outbound constructor builds around an inner Message `M`, whenever
`toMessageImpl` succeeds the tensor list of the returned Message is exactly
`M.tensors`, of the same length, whatever tensor table the pickler fills while
it serialises the metadata tuple. -/
theorem C3_tensors_preserved (X : Collaborators Tensor Cmd Cfg) (w : Int) (mt : MessageType)
    (M : Message Tensor) (C : Cfg) (e : RpcWithProfilingReq Tensor Cmd Cfg)
    (out : Message Tensor)
    (he : RpcWithProfilingReq.mkOutbound X w mt M C = .ok e)
    (hout : (e.toMessageImpl X).1 = .ok out) :
    out.tensors = M.tensors ∧ out.tensors.length = M.tensors.length := by
  obtain ⟨-, rfl⟩ := mkOutbound_ok he
  by_cases hp : M.payload = []
  · rw [toMessageImpl_empty X _ hp] at hout
    cases hout
  · rw [toMessageImpl_nonempty X _ hp] at hout
    injection hout with hout
    rw [← hout]
    exact ⟨rfl, rfl⟩

/-- C3 at the sample envelope, with a pickler that fills its tensor table with
the tensors 98 and 99: the returned Message carries the tensors 11 and 12. -/
theorem C3_tensors_preserved_witness :
    RpcWithProfilingReq.mkOutbound Sample.noisy 7 276 Sample.request 1
      = .ok Sample.outbound ∧
    (Sample.noisy.pickle [.int 256, .int 7, .int 1]).2 = [98, 99] ∧
    (Sample.outbound.toMessageImpl Sample.noisy).1 = .ok Sample.wire ∧
    Sample.wire.tensors = Sample.request.tensors ∧
    Sample.wire.tensors.length = Sample.request.tensors.length :=
  ⟨rfl, rfl, rfl,
    C3_tensors_preserved Sample.noisy 7 276 Sample.request 1 Sample.outbound Sample.wire
      rfl rfl⟩

/-- C4 (empty-payload guard). For every envelope `e` that the outbound
constructor builds around an inner Message `M`: if `M.payload` is empty,
`toMessageImpl` fails with the assertion `Wrapped payload should not be empty`
and returns no Message; if `M.payload` is not empty, `toMessageImpl` returns a
Message; and whenever `toMessageImpl` fails, the payload is empty and the error
is that assertion. -/
theorem C4_empty_payload_guard (X : Collaborators Tensor Cmd Cfg) (w : Int)
    (mt : MessageType) (M : Message Tensor) (C : Cfg)
    (e : RpcWithProfilingReq Tensor Cmd Cfg)
    (he : RpcWithProfilingReq.mkOutbound X w mt M C = .ok e) :
    (M.payload = [] → (e.toMessageImpl X).1 = .error .wrappedPayloadEmpty) ∧
    (M.payload ≠ [] → ∃ out, (e.toMessageImpl X).1 = .ok out) ∧
    (∀ err, (e.toMessageImpl X).1 = .error err →
      M.payload = [] ∧ err = .wrappedPayloadEmpty) := by
  obtain ⟨-, rfl⟩ := mkOutbound_ok he
  refine ⟨fun hp => toMessageImpl_empty X _ hp,
    fun hp => ⟨_, toMessageImpl_nonempty X _ hp⟩, fun err herr => ?_⟩
  by_cases hp : M.payload = []
  · rw [toMessageImpl_empty X _ hp] at herr
    injection herr with herr
    exact ⟨hp, herr.symm⟩
  · rw [toMessageImpl_nonempty X _ hp] at herr
    cases herr

/-- C4 at the sample request with an empty payload: `toMessageImpl` fails with
the empty-payload assertion. -/
theorem C4_empty_payload_guard_witness :
    RpcWithProfilingReq.mkOutbound Sample.collab 7 276 Sample.emptyRequest 1
      = .ok Sample.emptyOutbound ∧
    (Sample.emptyOutbound.toMessageImpl Sample.collab).1 = .error .wrappedPayloadEmpty :=
  ⟨rfl,
    (C4_empty_payload_guard Sample.collab 7 276 Sample.emptyRequest 1 Sample.emptyOutbound
      rfl).1 rfl⟩

/-- C5 (arity guard). For every received Message for which `readWrappedPayload`
returns a tuple of `k` elements with `k ≠ 3`, `fromMessage` fails with the
assertion `Expected payload of size 3 but got k`, returns no envelope, and the
only collaborator call it has executed is `readWrappedPayload`: neither the
request check nor `deserializeRequest` is reached. -/
theorem C5_arity_guard (X : Collaborators Tensor Cmd Cfg) (message : Message Tensor)
    (tupleElements : List IValue) (rest : Payload)
    (hread : X.readWrappedPayload message.payload message = .ok (tupleElements, rest))
    (hk : tupleElements.length ≠ 3) :
    (RpcWithProfilingReq.fromMessage X message).1
      = .error (.unexpectedPayloadSize tupleElements.length) ∧
    (∀ env, (RpcWithProfilingReq.fromMessage X message).1 ≠ .ok env) ∧
    (RpcWithProfilingReq.fromMessage X message).2
      = [Step.readWrappedPayload message.payload message] ∧
    (∀ m, Step.isRequest m ∉ (RpcWithProfilingReq.fromMessage X message).2) ∧
    (∀ m, Step.deserializeRequest m ∉ (RpcWithProfilingReq.fromMessage X message).2) := by
  rw [fromMessage_bad_arity X message tupleElements rest hread hk]
  simp

/-- C5 at a Message with two tuple elements and at one with four. -/
theorem C5_arity_guard_witness :
    (RpcWithProfilingReq.fromMessage Sample.collab Sample.twoElements).1
      = .error (.unexpectedPayloadSize 2) ∧
    (RpcWithProfilingReq.fromMessage Sample.collab Sample.fourElements).1
      = .error (.unexpectedPayloadSize 4) :=
  ⟨(C5_arity_guard Sample.collab Sample.twoElements [.int 7, .int 9] [65] rfl
      (by decide)).1,
    (C5_arity_guard Sample.collab Sample.fourElements [.int 256, .int 7, .int 1, .int 1] [65]
      rfl (by decide)).1⟩

/-- C6 (request-only guard on unwrap). For every received Message for which
`readWrappedPayload` returns a tuple of three elements whose element 0 is an
integer `t` that the `static_cast` turns into a tag that is not a request kind
(for a value of the enumeration, `t` itself), `fromMessage` fails with a fatal
error and returns no envelope, and `deserializeRequest` is not called; when
element 1 is an integer and `fromIValue` accepts element 2, the error is the
assertion `Messages wrapped with profiling requests must be requests`. -/
theorem C6_request_only_unwrap (X : Collaborators Tensor Cmd Cfg) (message : Message Tensor)
    (t : Int) (e1 e2 : IValue) (rest : Payload)
    (hread : X.readWrappedPayload message.payload message = .ok ([.int t, e1, e2], rest))
    (hnot : X.isRequest (castMessageType X t) = false) :
    (∃ err, (RpcWithProfilingReq.fromMessage X message).1 = .error err) ∧
    (∀ m, Step.deserializeRequest m ∉ (RpcWithProfilingReq.fromMessage X message).2) ∧
    (∀ i cfg, e1 = .int i → X.fromIValue e2 = .ok cfg →
      (RpcWithProfilingReq.fromMessage X message).1 = .error .mustBeRequests) :=
  fromMessage_not_request X message t e1 e2 rest hread hnot

/-- C6 at a Message whose tuple names the response tag `0x215`. -/
theorem C6_request_only_unwrap_witness :
    castMessageType Sample.collab 533 = 533 ∧
    Sample.collab.isRequest 533 = false ∧
    (RpcWithProfilingReq.fromMessage Sample.collab Sample.wrappedResponse).1
      = .error .mustBeRequests :=
  ⟨rfl, rfl,
    (C6_request_only_unwrap Sample.collab Sample.wrappedResponse 533 (.int 7) (.int 1)
      [65, 66, 67, 68] rfl rfl).2.2 7 1 rfl rfl⟩

/-- C7, the claim as stated fails: the sample response (tag `0x215`, not a
request kind) is wrapped by the outbound constructor and `toMessageImpl`
returns an outbound Message for it. -/
theorem C7_counterexample :
    Sample.collab.isRequest Sample.response.type = false ∧
    RpcWithProfilingReq.mkOutbound Sample.collab 7 276 Sample.response 1
      = .ok Sample.responseOutbound ∧
    (Sample.responseOutbound.toMessageImpl Sample.collab).1 = .ok Sample.wrappedResponse :=
  ⟨rfl, rfl, rfl⟩

/-- C7 as amended. Wrapping does not check the kind of the inner Message: for
every inner Message `M` whose type tag is not a request kind and whose payload
is non-empty, the outbound constructor with tag `RUN_WITH_PROFILING_REQ`
succeeds and `toMessageImpl` returns an outbound Message. The rejection happens
on unwrap: when `M.type` is a value of the enumeration (the cast gives it back)
and `readWrappedPayload`, called on that Message, returns the metadata tuple,
`fromMessage` fails on it with a fatal error, never calls `deserializeRequest`,
and the error is the assertion `Messages wrapped with profiling requests must
be requests` when `fromIValue` accepts the configuration value. -/
theorem C7_wrap_unchecked_unwrap_rejects (X : Collaborators Tensor Cmd Cfg) (w : Int)
    (M : Message Tensor) (C : Cfg)
    (hnot : M.isRequest X = false)
    (hne : M.payload ≠ []) :
    ∃ e out,
      RpcWithProfilingReq.mkOutbound X w X.RUN_WITH_PROFILING_REQ M C = .ok e ∧
      (e.toMessageImpl X).1 = .ok out ∧
      (∀ rest, castMessageType X M.type = M.type →
        X.readWrappedPayload out.payload out
          = .ok ([.int M.type, .int w, X.toIValues C], rest) →
        (∃ err, (RpcWithProfilingReq.fromMessage X out).1 = .error err) ∧
        (∀ m, Step.deserializeRequest m ∉ (RpcWithProfilingReq.fromMessage X out).2) ∧
        (∀ cfg, X.fromIValue (X.toIValues C) = .ok cfg →
          (RpcWithProfilingReq.fromMessage X out).1 = .error .mustBeRequests)) := by
  refine ⟨{ fromWorkerId_ := w, messageType_ := X.RUN_WITH_PROFILING_REQ, wrappedMessage_ := M,
            wrappedRpc_ := none, wrappedMessageType_ := M.type, tensors_ := M.tensors,
            profilerConfig_ := C },
          { payload := X.writeWrappedPayload M.payload
              (X.pickle [.int M.type, .int w, X.toIValues C]).1
            tensors := M.tensors, type := X.RUN_WITH_PROFILING_REQ, id := M.id },
          ?_, toMessageImpl_nonempty X _ hne, fun rest htag hread => ?_⟩
  · simp [RpcWithProfilingReq.mkOutbound]
  · have hnot2 : X.isRequest (castMessageType X M.type) = false := by
      rw [htag]
      exact hnot
    have h := fromMessage_not_request X _ M.type (.int w) (X.toIValues C) rest hread hnot2
    exact ⟨h.1, h.2.1, fun cfg hcfg => h.2.2 w cfg rfl hcfg⟩

/-- C7 as amended, at the sample response: it is wrapped and serialised into
the Message `wrappedResponse`, from which the sample codec returns the
metadata tuple, and `fromMessage` rejects that Message. -/
theorem C7_wrap_unchecked_unwrap_rejects_witness :
    (castMessageType Sample.collab Sample.response.type = Sample.response.type ∧
      Sample.collab.readWrappedPayload Sample.wrappedResponse.payload Sample.wrappedResponse
        = .ok ([.int 533, .int 7, .int 1], [65, 66, 67, 68])) ∧
    ∃ e out,
      RpcWithProfilingReq.mkOutbound Sample.collab 7 Sample.collab.RUN_WITH_PROFILING_REQ
        Sample.response 1 = .ok e ∧
      (e.toMessageImpl Sample.collab).1 = .ok out ∧
      (∀ rest, castMessageType Sample.collab Sample.response.type = Sample.response.type →
        Sample.collab.readWrappedPayload out.payload out
          = .ok ([.int Sample.response.type, .int 7, Sample.collab.toIValues 1], rest) →
        (∃ err, (RpcWithProfilingReq.fromMessage Sample.collab out).1 = .error err) ∧
        (∀ m, Step.deserializeRequest m
          ∉ (RpcWithProfilingReq.fromMessage Sample.collab out).2) ∧
        (∀ cfg, Sample.collab.fromIValue (Sample.collab.toIValues 1) = .ok cfg →
          (RpcWithProfilingReq.fromMessage Sample.collab out).1 = .error .mustBeRequests)) :=
  ⟨⟨rfl, rfl⟩,
    C7_wrap_unchecked_unwrap_rejects Sample.collab 7 Sample.response 1 rfl (by decide)⟩

/-- C8, the claim as stated fails: the sample request has the inner type tag
`0x100`, which is not `RUN_WITH_PROFILING_REQ`, and the outbound constructor
succeeds on it. -/
theorem C8_counterexample :
    Sample.request.type ≠ Sample.collab.RUN_WITH_PROFILING_REQ ∧
    RpcWithProfilingReq.mkOutbound Sample.collab 7 276 Sample.request 1
      = .ok Sample.outbound :=
  ⟨by decide, rfl⟩

/-- C8 as amended. Constructing an outbound envelope fails with the assertion
`Incorrect message type` whenever the `messageType` argument is not
`RUN_WITH_PROFILING_REQ`, whatever the type tag of the inner Message. -/
theorem C8_outbound_tag_argument_checked (X : Collaborators Tensor Cmd Cfg) (w : Int)
    (mt : MessageType) (M : Message Tensor) (C : Cfg)
    (hmt : mt ≠ X.RUN_WITH_PROFILING_REQ) :
    RpcWithProfilingReq.mkOutbound X w mt M C = .error .incorrectMessageType := by
  simp [RpcWithProfilingReq.mkOutbound, hmt]

/-- C8 as amended, at the `messageType` argument `0x100`. -/
theorem C8_outbound_tag_argument_checked_witness :
    RpcWithProfilingReq.mkOutbound Sample.collab 7 256 Sample.request 1
      = .error .incorrectMessageType :=
  C8_outbound_tag_argument_checked Sample.collab 7 256 Sample.request 1 (by decide)

/-- C9, the claim as stated fails: with the top-level tag `0x100` instead of
`RUN_WITH_PROFILING_REQ`, the inbound constructor succeeds, and so does
`fromMessage`; the envelopes they produce have top-level type `0x100`. -/
theorem C9_counterexample :
    (256 : MessageType) ≠ Sample.collab.RUN_WITH_PROFILING_REQ ∧
    (∃ env, RpcWithProfilingReq.mkInbound Sample.collab 7 256 (some [65]) 256 [] 1 = .ok env ∧
      env.messageType_ = 256) ∧
    (∃ env, (RpcWithProfilingReq.fromMessage Sample.collab Sample.mistagged).1 = .ok env ∧
      env.messageType_ = 256) :=
  ⟨by decide, ⟨_, rfl, rfl⟩, ⟨_, rfl, rfl⟩⟩

/-- C9 as amended. Every envelope produced by the outbound constructor has
top-level type `RUN_WITH_PROFILING_REQ`, and the outbound constructor rejects
every other tag with a fatal error. The inbound constructor and `fromMessage`
do not check the tag: the envelope they produce has as top-level type the
`messageType` argument, respectively the type tag of the received Message. -/
theorem C9_top_level_tag (X : Collaborators Tensor Cmd Cfg) :
    (∀ w mt M C e, RpcWithProfilingReq.mkOutbound X w mt M C = .ok e →
      e.messageType_ = X.RUN_WITH_PROFILING_REQ) ∧
    (∀ w mt M C, mt ≠ X.RUN_WITH_PROFILING_REQ →
      RpcWithProfilingReq.mkOutbound X w mt M C = .error .incorrectMessageType) ∧
    (∀ w mt rpc wmt ts C e, RpcWithProfilingReq.mkInbound X w mt rpc wmt ts C = .ok e →
      e.messageType_ = mt) ∧
    (∀ message e, (RpcWithProfilingReq.fromMessage X message).1 = .ok e →
      e.messageType_ = message.type) := by
  refine ⟨?_, ?_, ?_, ?_⟩
  · intro w mt M C e he
    obtain ⟨hmt, rfl⟩ := mkOutbound_ok he
    exact hmt
  · intro w mt M C hmt
    simp [RpcWithProfilingReq.mkOutbound, hmt]
  · intro w mt rpc wmt ts C e he
    obtain ⟨-, rfl⟩ := mkInbound_ok he
    rfl
  · intro message e he
    obtain ⟨t, i, e2, rest, cfg, rpc, -, -, -, -, hin⟩ := fromMessage_ok he
    obtain ⟨-, rfl⟩ := mkInbound_ok hin
    rfl

/-- C9 as amended, at the sample envelopes: the outbound envelope has the fixed
tag, and the envelope read from the sample wire Message has that Message's tag. -/
theorem C9_top_level_tag_witness :
    Sample.outbound.messageType_ = Sample.collab.RUN_WITH_PROFILING_REQ ∧
    (∀ e, (RpcWithProfilingReq.fromMessage Sample.collab Sample.wire).1 = .ok e →
      e.messageType_ = Sample.wire.type) :=
  ⟨(C9_top_level_tag Sample.collab).1 7 276 Sample.request 1 Sample.outbound rfl,
    (C9_top_level_tag Sample.collab).2.2.2 Sample.wire⟩

/-- C10 (serialized type tag). For every envelope `e` that the outbound
constructor builds around an inner Message `M`, whenever `toMessageImpl`
succeeds the type of the returned Message is `RUN_WITH_PROFILING_REQ`; it is
not taken from the inner Message, so it differs from `M.type` whenever `M.type`
is another tag. -/
theorem C10_serialized_type_tag (X : Collaborators Tensor Cmd Cfg) (w : Int)
    (mt : MessageType) (M : Message Tensor) (C : Cfg)
    (e : RpcWithProfilingReq Tensor Cmd Cfg) (out : Message Tensor)
    (he : RpcWithProfilingReq.mkOutbound X w mt M C = .ok e)
    (hout : (e.toMessageImpl X).1 = .ok out) :
    out.type = X.RUN_WITH_PROFILING_REQ ∧
    (M.type ≠ X.RUN_WITH_PROFILING_REQ → out.type ≠ M.type) := by
  obtain ⟨hmt, rfl⟩ := mkOutbound_ok he
  by_cases hp : M.payload = []
  · rw [toMessageImpl_empty X _ hp] at hout
    cases hout
  · rw [toMessageImpl_nonempty X _ hp] at hout
    injection hout with hout
    have ht : out.type = X.RUN_WITH_PROFILING_REQ := by rw [← hout]; exact hmt
    exact ⟨ht, fun hM h => hM (h.symm.trans ht)⟩

/-- C10 at the sample envelope: the returned Message has tag `0x114`, the
inner Message has tag `0x100`. -/
theorem C10_serialized_type_tag_witness :
    RpcWithProfilingReq.mkOutbound Sample.collab 7 276 Sample.request 1
      = .ok Sample.outbound ∧
    (Sample.outbound.toMessageImpl Sample.collab).1 = .ok Sample.wire ∧
    Sample.wire.type = Sample.collab.RUN_WITH_PROFILING_REQ ∧
    Sample.wire.type ≠ Sample.request.type :=
  ⟨rfl, rfl,
    (C10_serialized_type_tag Sample.collab 7 276 Sample.request 1 Sample.outbound Sample.wire
      rfl rfl).1,
    (C10_serialized_type_tag Sample.collab 7 276 Sample.request 1 Sample.outbound Sample.wire
      rfl rfl).2 (by decide)⟩

/-- C11 (inbound construction null check). The inbound constructor fails with
a fatal error if and only if the wrapped command passed to it is null, and the
error is then the assertion `wrappedRpc cant be null`; for every non-null
command it succeeds, and the envelope holds the given worker id, wrapped type
tag, tensors and profiler configuration, and that command. -/
theorem C11_inbound_null_check (X : Collaborators Tensor Cmd Cfg) (w : Int)
    (mt : MessageType) (rpc : Option Cmd) (wmt : MessageType) (ts : List Tensor) (C : Cfg) :
    ((∃ err, RpcWithProfilingReq.mkInbound X w mt rpc wmt ts C = .error err) ↔ rpc = none) ∧
    (rpc = none →
      RpcWithProfilingReq.mkInbound X w mt rpc wmt ts C = .error .wrappedRpcCantBeNull) ∧
    (∀ c, rpc = some c →
      ∃ e, RpcWithProfilingReq.mkInbound X w mt rpc wmt ts C = .ok e ∧
        e.fromWorkerId = w ∧ e.wrappedMessageType = wmt ∧ e.tensors_ = ts ∧
        e.getProfilingConfig = C ∧ e.wrappedRpc = .ok c) := by
  cases rpc with
  | none => simp [RpcWithProfilingReq.mkInbound]
  | some c =>
    refine ⟨by simp [RpcWithProfilingReq.mkInbound], by simp, fun c' hc => ?_⟩
    cases hc
    exact ⟨{ fromWorkerId_ := w, messageType_ := mt, wrappedMessage_ := Message.default X,
             wrappedRpc_ := some c, wrappedMessageType_ := wmt, tensors_ := ts,
             profilerConfig_ := C },
      by simp [RpcWithProfilingReq.mkInbound], rfl, rfl, rfl, rfl, rfl⟩

/-- C11 at a null command and at the sample command. -/
theorem C11_inbound_null_check_witness :
    RpcWithProfilingReq.mkInbound Sample.collab 7 276 (none : Option Payload) 256 [11, 12] 1
      = .error .wrappedRpcCantBeNull ∧
    ∃ e, RpcWithProfilingReq.mkInbound Sample.collab 7 276 (some [65, 66, 67, 68]) 256
          [11, 12] 1 = .ok e ∧
      e.fromWorkerId = 7 ∧ e.wrappedMessageType = 256 ∧ e.tensors_ = [11, 12] ∧
      e.getProfilingConfig = 1 ∧ e.wrappedRpc = .ok [65, 66, 67, 68] :=
  ⟨(C11_inbound_null_check Sample.collab 7 276 none 256 [11, 12] 1).2.1 rfl,
    (C11_inbound_null_check Sample.collab 7 276 (some [65, 66, 67, 68]) 256 [11, 12]
      1).2.2 [65, 66, 67, 68] rfl⟩

/-- C12, the claim as stated fails. Three reachable states of an envelope:
the sample outbound envelope after `setWrappedRpc` with a command holds both
the inner Message and a command; the sample inbound envelope after
`setWrappedRpc` with a null pointer holds neither; the sample outbound
envelope after `toMessageImpl` holds neither. -/
theorem C12_counterexample :
    (Reachable Sample.collab (Sample.outbound.setWrappedRpc (some [1])) ∧
      (Sample.outbound.setWrappedRpc (some [1])).wrappedMessage_ = Sample.request ∧
      (Sample.outbound.setWrappedRpc (some [1])).wrappedRpc_ = some [1] ∧
      (Sample.outbound.setWrappedRpc (some [1])).exactlyOnePopulated = false) ∧
    (Reachable Sample.collab (Sample.inbound.setWrappedRpc none) ∧
      (Sample.inbound.setWrappedRpc none).wrappedMessage_ = Message.default Sample.collab ∧
      (Sample.inbound.setWrappedRpc none).wrappedRpc_ = none ∧
      (Sample.inbound.setWrappedRpc none).exactlyOnePopulated = false) ∧
    (Reachable Sample.collab (Sample.outbound.toMessageImpl Sample.collab).2 ∧
      (Sample.outbound.toMessageImpl Sample.collab).2.wrappedMessage_.payload = [] ∧
      (Sample.outbound.toMessageImpl Sample.collab).2.wrappedRpc_ = none ∧
      (Sample.outbound.toMessageImpl Sample.collab).2.exactlyOnePopulated = false) :=
  ⟨⟨Reachable.setWrappedRpc _ _ (Reachable.outbound 7 276 Sample.request 1 _ rfl),
      rfl, rfl, rfl⟩,
    ⟨Reachable.setWrappedRpc _ _
        (Reachable.inbound 7 276 (some [65, 66, 67, 68]) 256 [11, 12] 1 _ rfl),
      rfl, rfl, rfl⟩,
    ⟨Reachable.toMessageImpl _ (Reachable.outbound 7 276 Sample.request 1 _ rfl),
      rfl, rfl, rfl⟩⟩

/-- C12 as amended. Right after construction exactly one of the inner Message
and the wrapped command is populated: an envelope from the outbound
constructor holds the inner Message it was given and a null command (so exactly
one is populated when that Message has a payload); an envelope from the inbound
constructor or from `fromMessage` holds a non-null command and a
default-constructed, empty inner Message. `setWrappedRpc` with a non-null
command on an envelope whose inner Message is empty leaves exactly one
populated. -/
theorem C12_two_shapes_after_construction (X : Collaborators Tensor Cmd Cfg) :
    (∀ w mt M C e, RpcWithProfilingReq.mkOutbound X w mt M C = .ok e →
      e.wrappedMessage_ = M ∧ e.hasWrappedRpc = false ∧
      (M.payload ≠ [] → e.hasWrappedMessage = true ∧ e.exactlyOnePopulated = true)) ∧
    (∀ w mt rpc wmt ts C e, RpcWithProfilingReq.mkInbound X w mt rpc wmt ts C = .ok e →
      e.wrappedMessage_ = Message.default X ∧ e.hasWrappedMessage = false ∧
      e.hasWrappedRpc = true ∧ e.exactlyOnePopulated = true) ∧
    (∀ message e, (RpcWithProfilingReq.fromMessage X message).1 = .ok e →
      e.wrappedMessage_ = Message.default X ∧ e.hasWrappedMessage = false ∧
      e.hasWrappedRpc = true ∧ e.exactlyOnePopulated = true) ∧
    (∀ (e : RpcWithProfilingReq Tensor Cmd Cfg) (c : Cmd), e.hasWrappedMessage = false →
      (e.setWrappedRpc (some c)).exactlyOnePopulated = true) := by
  have hin : ∀ w mt rpc wmt ts C e,
      RpcWithProfilingReq.mkInbound X w mt rpc wmt ts C = .ok e →
      e.wrappedMessage_ = Message.default X ∧ e.hasWrappedMessage = false ∧
      e.hasWrappedRpc = true ∧ e.exactlyOnePopulated = true := by
    intro w mt rpc wmt ts C e he
    obtain ⟨hsome, rfl⟩ := mkInbound_ok he
    simp [RpcWithProfilingReq.exactlyOnePopulated, RpcWithProfilingReq.hasWrappedMessage,
      RpcWithProfilingReq.hasWrappedRpc, Message.default, hsome]
  refine ⟨?_, hin, ?_, ?_⟩
  · intro w mt M C e he
    obtain ⟨-, rfl⟩ := mkOutbound_ok he
    refine ⟨rfl, rfl, fun hne => ?_⟩
    cases hp : M.payload with
    | nil => exact absurd hp hne
    | cons a l =>
      simp [RpcWithProfilingReq.exactlyOnePopulated, RpcWithProfilingReq.hasWrappedMessage,
        RpcWithProfilingReq.hasWrappedRpc, hp]
  · intro message e he
    obtain ⟨t, i, e2, rest, cfg, rpc, -, -, -, -, hmk⟩ := fromMessage_ok he
    exact hin _ _ _ _ _ _ _ hmk
  · intro e c hm
    simp [RpcWithProfilingReq.exactlyOnePopulated, RpcWithProfilingReq.setWrappedRpc,
      RpcWithProfilingReq.hasWrappedRpc, RpcWithProfilingReq.hasWrappedMessage] at hm ⊢
    exact hm

/-- C12 as amended, at the sample envelopes. -/
theorem C12_two_shapes_after_construction_witness :
    (Sample.outbound.wrappedMessage_ = Sample.request ∧ Sample.outbound.hasWrappedRpc = false ∧
      Sample.outbound.hasWrappedMessage = true ∧ Sample.outbound.exactlyOnePopulated = true) ∧
    (Sample.inbound.wrappedMessage_ = Message.default Sample.collab ∧
      Sample.inbound.hasWrappedMessage = false ∧ Sample.inbound.hasWrappedRpc = true ∧
      Sample.inbound.exactlyOnePopulated = true) :=
  ⟨⟨((C12_two_shapes_after_construction Sample.collab).1 7 276 Sample.request 1
        Sample.outbound rfl).1,
      ((C12_two_shapes_after_construction Sample.collab).1 7 276 Sample.request 1
        Sample.outbound rfl).2.1,
      ((C12_two_shapes_after_construction Sample.collab).1 7 276 Sample.request 1
        Sample.outbound rfl).2.2 (by decide)⟩,
    (C12_two_shapes_after_construction Sample.collab).2.2.1 Sample.wire Sample.inbound rfl⟩

/-- C13 (wrapped-command accessor). On an envelope built by the outbound
constructor `wrappedRpc()` fails with the assertion `wrappedRpc cannot be null`,
before `toMessageImpl` and on the envelope `toMessageImpl` leaves behind. On an
envelope built by the inbound constructor it returns the command given to the
constructor, and on an envelope built by `fromMessage` it returns the command
the registry returned for the Message handed to it. -/
theorem C13_wrappedRpc_accessor (X : Collaborators Tensor Cmd Cfg) :
    (∀ w mt M C e, RpcWithProfilingReq.mkOutbound X w mt M C = .ok e →
      e.wrappedRpc = .error .wrappedRpcCannotBeNull ∧
      (e.toMessageImpl X).2.wrappedRpc = .error .wrappedRpcCannotBeNull) ∧
    (∀ w mt rpc wmt ts C e, RpcWithProfilingReq.mkInbound X w mt rpc wmt ts C = .ok e →
      ∃ c, rpc = some c ∧ e.wrappedRpc = .ok c) ∧
    (∀ message e, (RpcWithProfilingReq.fromMessage X message).1 = .ok e →
      ∃ m c, Step.deserializeRequest m ∈ (RpcWithProfilingReq.fromMessage X message).2 ∧
        X.deserializeRequest m = .ok (some c) ∧ e.wrappedRpc = .ok c) := by
  have hin : ∀ w mt rpc wmt ts C e,
      RpcWithProfilingReq.mkInbound X w mt rpc wmt ts C = .ok e →
      ∃ c, rpc = some c ∧ e.wrappedRpc = .ok c := by
    intro w mt rpc wmt ts C e he
    obtain ⟨hsome, rfl⟩ := mkInbound_ok he
    cases rpc with
    | none => cases hsome
    | some c => exact ⟨c, rfl, rfl⟩
  refine ⟨?_, hin, ?_⟩
  · intro w mt M C e he
    obtain ⟨-, rfl⟩ := mkOutbound_ok he
    refine ⟨rfl, ?_⟩
    unfold RpcWithProfilingReq.wrappedRpc
    rw [toMessageImpl_left_rpc]
  · intro message e he
    obtain ⟨t, i, e2, rest, cfg, rpc, hread, hcfg, hq, hd, hmk⟩ := fromMessage_ok he
    obtain ⟨c, rfl, hc⟩ := hin _ _ _ _ _ _ _ hmk
    refine ⟨{ payload := rest, tensors := message.tensors, type := castMessageType X t,
              id := message.id }, c, ?_, hd, hc⟩
    rw [fromMessage_eval X message t i e2 rest cfg (some c) hread hcfg hq hd]
    simp

/-- C13 at the sample envelopes: the accessor fails on the outbound envelope
before and after `toMessageImpl`, and returns the command on the inbound one. -/
theorem C13_wrappedRpc_accessor_witness :
    (Sample.outbound.wrappedRpc = .error .wrappedRpcCannotBeNull ∧
      (Sample.outbound.toMessageImpl Sample.collab).2.wrappedRpc
        = .error .wrappedRpcCannotBeNull) ∧
    (∃ c, (some [65, 66, 67, 68] : Option Payload) = some c ∧ Sample.inbound.wrappedRpc = .ok c) :=
  ⟨(C13_wrappedRpc_accessor Sample.collab).1 7 276 Sample.request 1 Sample.outbound rfl,
    (C13_wrappedRpc_accessor Sample.collab).2.1 7 276 (some [65, 66, 67, 68]) 256 [11, 12] 1
      Sample.inbound rfl⟩

/-- C14 (single use). For every envelope, in particular one built by the
outbound constructor on which `toMessageImpl` has succeeded: the call leaves
the inner payload empty, so `toMessageImpl` on the envelope it leaves behind
fails with the assertion `Wrapped payload should not be empty`, and so does
every later call: the envelope never yields a second Message. -/
theorem C14_single_use (X : Collaborators Tensor Cmd Cfg)
    (e : RpcWithProfilingReq Tensor Cmd Cfg) :
    (e.toMessageImpl X).2.wrappedMessage_.payload = [] ∧
    ((e.toMessageImpl X).2.toMessageImpl X).1 = .error .wrappedPayloadEmpty ∧
    (∀ n, (((fun s => (RpcWithProfilingReq.toMessageImpl X s).2)^[n + 1] e).toMessageImpl X).1
      = .error .wrappedPayloadEmpty) ∧
    (∀ n second,
      (((fun s => (RpcWithProfilingReq.toMessageImpl X s).2)^[n + 1] e).toMessageImpl X).1
        ≠ .ok second) := by
  have hall : ∀ n,
      (((fun s => (RpcWithProfilingReq.toMessageImpl X s).2)^[n + 1] e).toMessageImpl X).1
        = .error .wrappedPayloadEmpty :=
    fun n => toMessageImpl_empty X _ (iterate_toMessageImpl_payload X e n)
  refine ⟨toMessageImpl_left_payload X e,
    toMessageImpl_empty X _ (toMessageImpl_left_payload X e), hall, fun n second h => ?_⟩
  rw [hall n] at h
  cases h

/-- C14 at the sample envelope: the first call returns the wire Message, the
second call fails. -/
theorem C14_single_use_witness :
    RpcWithProfilingReq.mkOutbound Sample.collab 7 276 Sample.request 1
      = .ok Sample.outbound ∧
    (Sample.outbound.toMessageImpl Sample.collab).1 = .ok Sample.wire ∧
    ((Sample.outbound.toMessageImpl Sample.collab).2.toMessageImpl Sample.collab).1
      = .error .wrappedPayloadEmpty :=
  ⟨rfl, rfl,
    (C14_single_use Sample.collab Sample.outbound).2.1⟩

/-- C16 (serialized payload composition). For every envelope that the outbound
constructor builds from `w`, `M` and `C` with `M.payload` non-empty,
`toMessageImpl` returns a Message whose payload is `writeWrappedPayload`
applied to `M.payload` and to the pickled bytes of the tuple of exactly three
elements `M.type`, `w`, `C.toIValues()`, in that order. When
`readWrappedPayload` returns that tuple from the Message, `fromMessage` passes
its arity guard: it goes on to call `fromIValue` on element 2, and its result
is not the trace of a tripped guard. -/
theorem C16_payload_composition (X : Collaborators Tensor Cmd Cfg) (w : Int)
    (mt : MessageType) (M : Message Tensor) (C : Cfg)
    (e : RpcWithProfilingReq Tensor Cmd Cfg)
    (he : RpcWithProfilingReq.mkOutbound X w mt M C = .ok e)
    (hne : M.payload ≠ []) :
    ∃ out, (e.toMessageImpl X).1 = .ok out ∧
      out.payload = X.writeWrappedPayload M.payload
        (X.pickle [.int M.type, .int w, X.toIValues C]).1 ∧
      [IValue.int M.type, IValue.int w, X.toIValues C].length
        = profilingResponseElementExpectedSize ∧
      (∀ rest, X.readWrappedPayload out.payload out
          = .ok ([.int M.type, .int w, X.toIValues C], rest) →
        Step.fromIValue (X.toIValues C) ∈ (RpcWithProfilingReq.fromMessage X out).2 ∧
        (RpcWithProfilingReq.fromMessage X out).2
          ≠ [Step.readWrappedPayload out.payload out]) := by
  obtain ⟨-, rfl⟩ := mkOutbound_ok he
  refine ⟨_, toMessageImpl_nonempty X _ hne, rfl, rfl, fun rest hread => ?_⟩
  have hmem := fromMessage_reaches_fromIValue X _ M.type w (X.toIValues C) rest hread
  refine ⟨hmem, fun heq => ?_⟩
  rw [heq] at hmem
  simp at hmem

/-- C16 at the sample envelope: the payload is `ABCD` followed by the six
bytes of the tuple 256, 7, 1 and their count. -/
theorem C16_payload_composition_witness :
    ∃ out, (Sample.outbound.toMessageImpl Sample.collab).1 = .ok out ∧
      out.payload = Sample.collab.writeWrappedPayload Sample.request.payload
        (Sample.collab.pickle [.int Sample.request.type, .int 7, Sample.collab.toIValues 1]).1 ∧
      [IValue.int Sample.request.type, IValue.int 7, Sample.collab.toIValues 1].length
        = profilingResponseElementExpectedSize ∧
      (∀ rest, Sample.collab.readWrappedPayload out.payload out
          = .ok ([.int Sample.request.type, .int 7, Sample.collab.toIValues 1], rest) →
        Step.fromIValue (Sample.collab.toIValues 1)
          ∈ (RpcWithProfilingReq.fromMessage Sample.collab out).2 ∧
        (RpcWithProfilingReq.fromMessage Sample.collab out).2
          ≠ [Step.readWrappedPayload out.payload out]) :=
  C16_payload_composition Sample.collab 7 276 Sample.request 1 Sample.outbound rfl
    (by decide)

/-- C17 (late-binding setter). For every envelope and every command pointer,
`setWrappedRpc` leaves the worker id, the profiler configuration, the wrapped
type tag, the top-level tag, the tensors and the inner Message unchanged;
afterwards `wrappedRpc()` returns the command when the pointer is not null and
fails with the assertion `wrappedRpc cannot be null` when it is null. -/
theorem C17_setWrappedRpc_frame (e : RpcWithProfilingReq Tensor Cmd Cfg)
    (wrappedRpc : Option Cmd) :
    (e.setWrappedRpc wrappedRpc).fromWorkerId = e.fromWorkerId ∧
    (e.setWrappedRpc wrappedRpc).getProfilingConfig = e.getProfilingConfig ∧
    (e.setWrappedRpc wrappedRpc).wrappedMessageType = e.wrappedMessageType ∧
    (e.setWrappedRpc wrappedRpc).messageType_ = e.messageType_ ∧
    (e.setWrappedRpc wrappedRpc).tensors_ = e.tensors_ ∧
    (e.setWrappedRpc wrappedRpc).wrappedMessage_ = e.wrappedMessage_ ∧
    (∀ c, wrappedRpc = some c → (e.setWrappedRpc wrappedRpc).wrappedRpc = .ok c) ∧
    (wrappedRpc = none →
      (e.setWrappedRpc wrappedRpc).wrappedRpc = .error .wrappedRpcCannotBeNull) := by
  refine ⟨rfl, rfl, rfl, rfl, rfl, rfl, ?_, ?_⟩
  · intro c hc
    subst hc
    rfl
  · intro hc
    subst hc
    rfl

/-- C17 at the sample inbound envelope, with a new command and with a null
pointer. -/
theorem C17_setWrappedRpc_frame_witness :
    (Sample.inbound.setWrappedRpc (some [1])).wrappedRpc = .ok [1] ∧
    (Sample.inbound.setWrappedRpc none).wrappedRpc = .error .wrappedRpcCannotBeNull ∧
    (Sample.inbound.setWrappedRpc none).tensors_ = Sample.inbound.tensors_ :=
  ⟨(C17_setWrappedRpc_frame Sample.inbound (some [1])).2.2.2.2.2.2.1 [1] rfl,
    (C17_setWrappedRpc_frame Sample.inbound none).2.2.2.2.2.2.2 rfl,
    (C17_setWrappedRpc_frame Sample.inbound none).2.2.2.2.1⟩

/-- C18 (outbound construction depends only on the top-level tag argument).
For every worker id, inner Message (of any type tag and any payload) and
configuration, the outbound constructor succeeds if and only if the
`messageType` argument is `RUN_WITH_PROFILING_REQ`; on success the envelope
reports the given worker id and configuration, the type tag of the inner
Message and its tensors; an inner Message with an empty payload is accepted by
the constructor and rejected by `toMessageImpl`. -/
theorem C18_outbound_depends_on_tag_only (X : Collaborators Tensor Cmd Cfg) (w : Int)
    (mt : MessageType) (M : Message Tensor) (C : Cfg) :
    ((∃ e, RpcWithProfilingReq.mkOutbound X w mt M C = .ok e)
      ↔ mt = X.RUN_WITH_PROFILING_REQ) ∧
    (mt ≠ X.RUN_WITH_PROFILING_REQ →
      RpcWithProfilingReq.mkOutbound X w mt M C = .error .incorrectMessageType) ∧
    (∀ e, RpcWithProfilingReq.mkOutbound X w mt M C = .ok e →
      e.fromWorkerId = w ∧ e.getProfilingConfig = C ∧ e.wrappedMessageType = M.type ∧
      e.tensors_ = M.tensors) ∧
    (mt = X.RUN_WITH_PROFILING_REQ → M.payload = [] →
      ∃ e, RpcWithProfilingReq.mkOutbound X w mt M C = .ok e ∧
        (e.toMessageImpl X).1 = .error .wrappedPayloadEmpty) := by
  refine ⟨⟨fun ⟨e, he⟩ => (mkOutbound_ok he).1, fun hmt => ?_⟩, fun hmt => ?_, fun e he => ?_,
    fun hmt hp => ?_⟩
  · exact ⟨_, by simp [RpcWithProfilingReq.mkOutbound, hmt]; rfl⟩
  · simp [RpcWithProfilingReq.mkOutbound, hmt]
  · obtain ⟨-, rfl⟩ := mkOutbound_ok he
    exact ⟨rfl, rfl, rfl, rfl⟩
  · refine ⟨{ fromWorkerId_ := w, messageType_ := mt, wrappedMessage_ := M, wrappedRpc_ := none,
              wrappedMessageType_ := M.type, tensors_ := M.tensors, profilerConfig_ := C },
      by simp [RpcWithProfilingReq.mkOutbound, hmt], toMessageImpl_empty X _ hp⟩

/-- C18 at the sample request with an empty payload: the constructor accepts
it under the tag `0x114` and rejects it under the tag `0x100`; `toMessageImpl`
then fails on the empty payload. -/
theorem C18_outbound_depends_on_tag_only_witness :
    RpcWithProfilingReq.mkOutbound Sample.collab 7 256 Sample.emptyRequest 1
      = .error .incorrectMessageType ∧
    ∃ e, RpcWithProfilingReq.mkOutbound Sample.collab 7 276 Sample.emptyRequest 1 = .ok e ∧
      (e.toMessageImpl Sample.collab).1 = .error .wrappedPayloadEmpty :=
  ⟨(C18_outbound_depends_on_tag_only Sample.collab 7 256 Sample.emptyRequest 1).2.1
      (by decide),
    (C18_outbound_depends_on_tag_only Sample.collab 7 276 Sample.emptyRequest 1).2.2.2
      rfl rfl⟩

end Claims

end RpcProfiling
